import Mathlib

/-!
Verification development for the FaceDetection-Python repository
(BenByteCode/FaceCraft). The four scripts are straight-line glue around
external OpenCV / MediaPipe calls. We embed the glue shallowly:

* an in-memory raster image is a height, a width and a pixel map
  (row, column) ↦ BGR value;
* every external library call (cvtColor, GaussianBlur, Canny,
  findContours, contourArea, boundingRect, detectMultiScale,
  FaceMesh.process, draw_landmarks, and the rasterised pixel footprint of
  cv2.rectangle) is an oracle function carried by an environment record,
  universally quantified in the theorems;
* the glue itself — the numpy ROI slice `img[y:y+h, x:x+w]`, the
  remapping of view writes into the parent image with clipping to the
  view bounds, the contour-area threshold loop, the order of console
  prints, file reads/writes, window calls and exit codes — is translated
  line by line from the scripts;
* each script run is a trace of observable effects plus an exit code.
-/

namespace FaceCraft

/-- A BGR pixel value, one natural number per channel. -/
abbrev Pixel := Nat × Nat × Nat

/-- An in-memory raster image: dimensions plus a (row, column) pixel map. -/
structure Image where
  h : Nat
  w : Nat
  pix : Nat → Nat → Pixel

/-- Write one pixel of an image (an in-place numpy element assignment). -/
def setPix (img : Image) (r c : Nat) (v : Pixel) : Image :=
  { img with pix := fun r' c' => if r' = r ∧ c' = c then v else img.pix r' c' }

/-- Model of np.zeros((hh, ww, 3), dtype=uint8): an all-black image. -/
def zerosImage (hh ww : Nat) : Image :=
  { h := hh, w := ww, pix := fun _ _ => (0, 0, 0) }

/-- Model of img.copy(): a fresh buffer with the same contents. -/
def copyImage (img : Image) : Image :=
  { h := img.h, w := img.w, pix := fun r c => img.pix r c }

/-- BGR blue (255, 0, 0), the face-rectangle colour in scripts 02 and 03. -/
def blueBGR : Pixel := (255, 0, 0)

/-- BGR green (0, 255, 0), the colour of eye and contour rectangles. -/
def greenBGR : Pixel := (0, 255, 0)

/-- BGR white (255, 255, 255). -/
def whiteBGR : Pixel := (255, 255, 255)

/-- BGR black (0, 0, 0). -/
def blackBGR : Pixel := (0, 0, 0)

/-- An axis-aligned bounding box (x, y, w, h) as returned by
cv2.boundingRect and CascadeClassifier.detectMultiScale. -/
structure Rect where
  x : Nat
  y : Nat
  w : Nat
  h : Nat
deriving DecidableEq

/-- The absolute position of an eye rectangle drawn by detect_features:
cv2.rectangle(roi_color, (ex, ey), (ex+ew, ey+eh), ...) targets the view
roi_color = img[y:y+h, x:x+w], so the rectangle lands at
(x+ex, y+ey, ew, eh) in main-image coordinates. -/
def absEyeRect (face eye : Rect) : Rect :=
  { x := face.x + eye.x, y := face.y + eye.y, w := eye.w, h := eye.h }

/-- Containment of one bounding box in another, stated exactly as the
four coordinate inequalities of the claim. -/
def rectWithin (inner outer : Rect) : Prop :=
  outer.x ≤ inner.x ∧ outer.y ≤ inner.y ∧
  inner.x + inner.w ≤ outer.x + outer.w ∧
  inner.y + inner.h ≤ outer.y + outer.h

/-- Number of rows of the numpy slice img[y:y+h, x:x+w]: python slicing
clamps both endpoints to the array's extent. -/
def viewRows (img : Image) (face : Rect) : Nat :=
  min (face.y + face.h) img.h - face.y

/-- Number of columns of the numpy slice img[y:y+h, x:x+w]. -/
def viewCols (img : Image) (face : Rect) : Nat :=
  min (face.x + face.w) img.w - face.x

/-- The numpy slice gray[y:y+h, x:x+w] materialised as an image (used as
the read-only roi_gray argument of the eye cascade). -/
def sliceImage (img : Image) (face : Rect) : Image :=
  { h := viewRows img face
    w := viewCols img face
    pix := fun r c => img.pix (face.y + r) (face.x + c) }

/-- A pixel write through a full image's Mat header: cv2 drawing clips to
the Mat bounds, so out-of-range coordinates write nothing. Coordinates
are (row, column) and may be negative before clipping. -/
def clippedSet (img : Image) (p : Int × Int) (v : Pixel) : Image :=
  if 0 ≤ p.1 ∧ p.1 < (img.h : Int) ∧ 0 ≤ p.2 ∧ p.2 < (img.w : Int) then
    setPix img p.1.toNat p.2.toNat v
  else img

/-- A pixel write through the Mat header of the view img[y:y+h, x:x+w]:
view coordinate (i, j) is clipped to the view's own extent and lands at
(y+i, x+j) of the parent image. -/
def roiWrite (img : Image) (face : Rect) (p : Int × Int) (v : Pixel) : Image :=
  if 0 ≤ p.1 ∧ p.1 < (viewRows img face : Int) ∧
      0 ≤ p.2 ∧ p.2 < (viewCols img face : Int) then
    setPix img (face.y + p.1.toNat) (face.x + p.2.toNat) v
  else img

/-- The pixel footprint (row, column pairs, in the coordinate frame of
the Mat being drawn on) that cv2.rectangle rasterises for a given
rectangle; the rasterisation itself is OpenCV-internal, so it enters the
model as an oracle of this type. -/
def RectFootprint : Type := Rect → List (Int × Int)

/-- cv2.rectangle(img, (x, y), (x+w, y+h), color, 2) on a full image:
every footprint pixel is written through the clipping primitive. -/
def drawRect (rp : RectFootprint) (img : Image) (r : Rect) (color : Pixel) : Image :=
  (rp r).foldl (fun im p => clippedSet im p color) img

/-- cv2.rectangle(roi_color, (ex, ey), (ex+ew, ey+eh), (0,255,0), 2):
the same footprint oracle, but every pixel is written through the view
img[y:y+h, x:x+w] of the parent image. -/
def drawRectOnROI (rp : RectFootprint) (img : Image) (face eye : Rect) : Image :=
  (rp eye).foldl (fun im p => roiWrite im face p greenBGR) img

/-- The eye-drawing loop of detect_features for one detected face: green
rectangles for all eye boxes, drawn onto the roi_color view. -/
def drawEyesOnROI (rp : RectFootprint) (img : Image) (face : Rect)
    (eyes : List Rect) : Image :=
  eyes.foldl (fun im e => drawRectOnROI rp im face e) img

/-- The console messages the four scripts can print, one constructor per
print statement of the source; render gives the exact text. -/
inductive Msg where
  | notFoundPlain : Msg
  | notFoundAt : String → Msg
  | couldNotLoad : Msg
  | foundExcl : Nat → Msg
  | foundPeriod : Nat → Msg
  | resultSaved : String → Msg
  | noFacesFound : Msg
  | successEdge : Msg
  | noEdgeFace : Msg
deriving DecidableEq

/-- The exact console text of each message, as the scripts print it. -/
def Msg.render : Msg → String
  | .notFoundPlain => "❌ Image file not found"
  | .notFoundAt p => "❌ Image file not found at: " ++ p
  | .couldNotLoad => "Error: Could not load image."
  | .foundExcl n => "Found " ++ toString n ++ " faces!"
  | .foundPeriod n => "Found " ++ toString n ++ " faces."
  | .resultSaved p => "Result saved as '" ++ p ++ "'"
  | .noFacesFound => "No faces found."
  | .successEdge => "Success: Face shape detected via edge analysis."
  | .noEdgeFace => "No face-like edges found."

/-- Whether a message reports one of the two checked error conditions
(missing input file, failed image decode). -/
def Msg.isError : Msg → Bool
  | .notFoundPlain => true
  | .notFoundAt _ => true
  | .couldNotLoad => true
  | _ => false

/-- An observable side effect of a script run. -/
inductive Effect where
  | printMsg : Msg → Effect
  | loadDetector : String → Effect
  | readFile : String → Effect
  | detect : String → Effect
  | showWindow : String → Effect
  | writeFile : String → Effect
  | waitKey : Effect
  | destroyAllWindows : Effect
  | plotShow : Effect
deriving DecidableEq

/-- The observable outcome of one script execution: the ordered effect
trace and the process exit status. -/
structure ScriptResult where
  trace : List Effect
  exitCode : Nat
deriving DecidableEq

/-- No cascade / mesh detection call occurs in the trace. -/
def noDetectCall (t : List Effect) : Prop := ∀ s, Effect.detect s ∉ t

/-- No output file write occurs in the trace. -/
def noFileWrite (t : List Effect) : Prop := ∀ p, Effect.writeFile p ∉ t

/-- No display window is opened in the trace. -/
def noWindow (t : List Effect) : Prop := ∀ s, Effect.showWindow s ∉ t

/-- Some error message is printed in the trace. -/
def errPrinted (t : List Effect) : Prop :=
  ∃ m, Effect.printMsg m ∈ t ∧ m.isError = true

/-- A contour as returned by cv2.findContours: a list of integer points. -/
def Contour : Type := List (Int × Int)

/-- Oracle record for script 01 (01-detect_face_by_edge.py): every cv2
call the script makes, with the script's literal arguments passed
through. -/
structure Env01 where
  ellipse : Image → Nat × Nat → Nat × Nat → Int → Int → Int → Pixel → Int → Image
  circle : Image → Nat × Nat → Nat → Pixel → Int → Image
  cvtGray : Image → Image
  gaussianBlur : Image → Nat × Nat → Nat → Image
  canny : Image → Nat → Nat → Image
  findContours : Image → List Contour
  contourArea : Contour → ℚ
  boundingRect : Contour → Rect
  rectPixels : RectFootprint

/-- generate_sample_face from 01-detect_face_by_edge.py: a black 300×300
canvas, a filled white oval, two filled black eye circles, and a black
mouth arc, each drawn by the corresponding cv2 call. -/
def generate_sample_face (env : Env01) : Image :=
  let img := zerosImage 300 300
  let img := env.ellipse img (150, 150) (100, 120) 0 0 360 whiteBGR (-1)
  let img := env.circle img (110, 130) 15 blackBGR (-1)
  let img := env.circle img (190, 130) 15 blackBGR (-1)
  env.ellipse img (150, 180) (40, 20) 0 0 180 blackBGR 5

/-- The two buffers live inside detect_face_edges: the input array img
and the copy result_img that the rectangles are drawn on. -/
structure EdgeBuffers where
  img : Image
  result : Image

/-- One iteration of the contour loop of detect_face_edges: a contour
with area above 1000 gets a green bounding rectangle on the result
buffer and sets the flag; smaller contours leave the state unchanged. -/
def edgeStep (env : Env01) (acc : EdgeBuffers × Bool) (c : Contour) :
    EdgeBuffers × Bool :=
  if env.contourArea c > 1000 then
    ({ acc.1 with
        result := drawRect env.rectPixels acc.1.result (env.boundingRect c) greenBGR },
      true)
  else acc

/-- detect_face_edges from 01-detect_face_by_edge.py: grayscale, 5×5
Gaussian blur, Canny with thresholds 50 and 150, external contours, then
the area-threshold loop over a copy of the input. Returns the edge map,
the two buffers after the call, and the face_detected flag. -/
def detect_face_edges (env : Env01) (img : Image) : Image × EdgeBuffers × Bool :=
  let gray := env.cvtGray img
  let blurred := env.gaussianBlur gray (5, 5) 0
  let edges := env.canny blurred 50 150
  let contours := env.findContours edges
  let fin := contours.foldl (edgeStep env) ({ img := img, result := copyImage img }, false)
  (edges, fin.1, fin.2)

/-- The main block of 01-detect_face_by_edge.py: generate the synthetic
image, run detection, show the matplotlib figure, print the verdict;
the script always exits 0. -/
def main01 (env : Env01) : ScriptResult :=
  let res := detect_face_edges env (generate_sample_face env)
  { trace := [Effect.plotShow,
      Effect.printMsg (if res.2.2 then Msg.successEdge else Msg.noEdgeFace)]
    exitCode := 0 }

/-- Oracle record for script 02 (02-detect_face_by_haar.py): whether the
hardcoded input path exists, the decode result of cv2.imread, and the
cv2 calls the script makes. -/
structure Env02 where
  fileExists : Bool
  decode : Option Image
  cvtGray : Image → Image
  faceDetect : Image → List Rect
  rectPixels : RectFootprint

/-- detect_faces_in_image from 02-detect_face_by_haar.py: load the face
cascade, read the image (early return on a failed decode), grayscale,
run detectMultiScale, print the count, draw a blue rectangle per face on
the image itself, then show, save, print, wait and destroy. Returns the
effect trace and the final image when one was produced. -/
def detect_faces_in_image (env : Env02) (image_url : String) :
    List Effect × Option Image :=
  let loadEff := Effect.loadDetector "haarcascade_frontalface_default.xml"
  match env.decode with
  | none =>
      ([loadEff, Effect.readFile image_url, Effect.printMsg Msg.couldNotLoad], none)
  | some img =>
      let gray := env.cvtGray img
      let faces := env.faceDetect gray
      let img2 := faces.foldl (fun im f => drawRect env.rectPixels im f blueBGR) img
      ([loadEff, Effect.readFile image_url,
        Effect.detect "haarcascade_frontalface_default",
        Effect.printMsg (Msg.foundExcl faces.length),
        Effect.showWindow "Detected Faces",
        Effect.writeFile "./output/detected_faces.jpg",
        Effect.printMsg (Msg.resultSaved "./output/detected_faces.jpg"),
        Effect.waitKey, Effect.destroyAllWindows], some img2)

/-- The main block of 02-detect_face_by_haar.py: existence check on the
hardcoded url, exit 1 with a message when absent, otherwise run the
detection procedure and exit 0. -/
def main02 (env : Env02) : ScriptResult :=
  if env.fileExists then
    { trace := (detect_faces_in_image env "./data/sample_faces.jpeg").1
      exitCode := 0 }
  else
    { trace := [Effect.printMsg Msg.notFoundPlain], exitCode := 1 }

/-- Oracle record for script 03 (03-detect_features_by_haar.py): the two
cascades' results, plus Path.absolute for the error message text. -/
structure Env03 where
  fileExists : Bool
  decode : Option Image
  cvtGray : Image → Image
  faceDetect : Image → List Rect
  eyeDetect : Image → List Rect
  rectPixels : RectFootprint
  absPath : String → String

/-- The per-face body of the loop in detect_features: a blue rectangle
around the face on the main image, then the eye cascade on the grayscale
ROI slice, then green eye rectangles drawn onto the roi_color view. -/
def featureStep (env : Env03) (gray : Image) (im : Image) (face : Rect) : Image :=
  let img1 := drawRect env.rectPixels im face blueBGR
  let eyes := env.eyeDetect (sliceImage gray face)
  drawEyesOnROI env.rectPixels img1 face eyes

/-- detect_features from 03-detect_features_by_haar.py: load both
cascades, read the image (early return on a failed decode), grayscale,
run the face cascade, print the count, run the per-face loop (one eye
cascade call per face), then show, save, print, wait and destroy. -/
def detect_features (env : Env03) (image_path : String) :
    List Effect × Option Image :=
  let loads := [Effect.loadDetector "haarcascade_frontalface_default.xml",
    Effect.loadDetector "haarcascade_eye.xml"]
  match env.decode with
  | none =>
      (loads ++ [Effect.readFile image_path, Effect.printMsg Msg.couldNotLoad], none)
  | some img =>
      let gray := env.cvtGray img
      let faces := env.faceDetect gray
      let finalImg := faces.foldl (featureStep env gray) img
      (loads ++ [Effect.readFile image_path,
        Effect.detect "haarcascade_frontalface_default",
        Effect.printMsg (Msg.foundPeriod faces.length)] ++
        List.replicate faces.length (Effect.detect "haarcascade_eye") ++
        [Effect.showWindow "Detected Faces and Eyes",
        Effect.writeFile "./output/detected_features.jpg",
        Effect.printMsg (Msg.resultSaved "./output/detected_features.jpg"),
        Effect.waitKey, Effect.destroyAllWindows], some finalImg)

/-- The main block of 03-detect_features_by_haar.py. -/
def main03 (env : Env03) : ScriptResult :=
  if env.fileExists then
    { trace := (detect_features env "./data/sample_faces.jpeg").1
      exitCode := 0 }
  else
    { trace := [Effect.printMsg
        (Msg.notFoundAt (env.absPath "./data/sample_faces.jpeg"))]
      exitCode := 1 }

/-- One face's normalized landmark set as returned by MediaPipe. -/
def FaceLandmarks : Type := List (ℚ × ℚ × ℚ)

/-- Oracle record for script 04 (04-detect_face_by_mediapipe.py):
FaceMesh.process returns None or a list of per-face landmark sets, and
mp_drawing.draw_landmarks is an image transformer tagged by the
connection set it draws. -/
structure Env04 where
  fileExists : Bool
  decode : Option Image
  cvtRGB : Image → Image
  processResult : Image → Option (List FaceLandmarks)
  drawLandmarks : Image → FaceLandmarks → String → Image
  absPath : String → String

/-- detect_face_contours from 04-detect_face_by_mediapipe.py: build the
FaceMesh model, read the image (early return on a failed decode),
convert to RGB, process, then either print the face count and draw the
tesselation and contours per face, or print that no faces were found
(Python truthiness: both None and an empty list take that branch);
finally show, save, print, wait and destroy. -/
def detect_face_contours (env : Env04) (image_path : String) :
    List Effect × Option Image :=
  let initEff := Effect.loadDetector "FaceMesh"
  match env.decode with
  | none =>
      ([initEff, Effect.readFile image_path, Effect.printMsg Msg.couldNotLoad], none)
  | some img =>
      let imgRGB := env.cvtRGB img
      let results := env.processResult imgRGB
      let branch : List Effect × Image :=
        match results with
        | some l =>
            if l.isEmpty then ([Effect.printMsg Msg.noFacesFound], img)
            else ([Effect.printMsg (Msg.foundPeriod l.length)],
              l.foldl (fun im f =>
                env.drawLandmarks (env.drawLandmarks im f "FACEMESH_TESSELATION")
                  f "FACEMESH_CONTOURS") img)
        | none => ([Effect.printMsg Msg.noFacesFound], img)
      ([initEff, Effect.readFile image_path, Effect.detect "FaceMesh"] ++
        branch.1 ++
        [Effect.showWindow "Face Contours",
        Effect.writeFile "./output/detected_contours.jpg",
        Effect.printMsg (Msg.resultSaved "./output/detected_contours.jpg"),
        Effect.waitKey, Effect.destroyAllWindows], some branch.2)

/-- The main block of 04-detect_face_by_mediapipe.py. -/
def main04 (env : Env04) : ScriptResult :=
  if env.fileExists then
    { trace := (detect_face_contours env "./data/brendan.jpeg").1
      exitCode := 0 }
  else
    { trace := [Effect.printMsg (Msg.notFoundAt (env.absPath "./data/brendan.jpeg"))]
      exitCode := 1 }

/-- A small concrete image for instantiating theorems. -/
def imgOne : Image := zerosImage 4 4

/-- A concrete rectangle footprint: one pixel at the top-left corner. -/
def rpCorner : RectFootprint := fun _ => [(0, 0)]

/-- Concrete script-01 environment with trivial oracles (no contours). -/
def cEnv01 : Env01 :=
  { ellipse := fun im _ _ _ _ _ _ _ => im
    circle := fun im _ _ _ _ => im
    cvtGray := fun im => im
    gaussianBlur := fun im _ _ => im
    canny := fun im _ _ => im
    findContours := fun _ => []
    contourArea := fun _ => 0
    boundingRect := fun _ => { x := 0, y := 0, w := 0, h := 0 }
    rectPixels := rpCorner }

/-- Concrete script-02 environment: missing input file. -/
def envMissing02 : Env02 :=
  { fileExists := false, decode := none, cvtGray := fun im => im
    faceDetect := fun _ => [], rectPixels := rpCorner }

/-- Concrete script-02 environment: file present, decode fails. -/
def envBad02 : Env02 := { envMissing02 with fileExists := true }

/-- Concrete script-02 environment: file present, decode succeeds, the
cascade finds nothing. -/
def envOk02 : Env02 := { envBad02 with decode := some imgOne }

/-- Concrete script-03 environment: missing input file. -/
def envMissing03 : Env03 :=
  { fileExists := false, decode := none, cvtGray := fun im => im
    faceDetect := fun _ => [], eyeDetect := fun _ => []
    rectPixels := rpCorner, absPath := fun p => p }

/-- Concrete script-03 environment: file present, decode fails. -/
def envBad03 : Env03 := { envMissing03 with fileExists := true }

/-- Concrete script-03 environment: file present, decode succeeds, the
face cascade finds nothing. -/
def envOk03 : Env03 := { envBad03 with decode := some imgOne }

/-- Concrete script-04 environment: missing input file. -/
def envMissing04 : Env04 :=
  { fileExists := false, decode := none, cvtRGB := fun im => im
    processResult := fun _ => none
    drawLandmarks := fun im _ _ => im, absPath := fun p => p }

/-- Concrete script-04 environment: file present, decode fails. -/
def envBad04 : Env04 := { envMissing04 with fileExists := true }

/-- Concrete script-04 environment: file present, decode succeeds,
FaceMesh.process returns None. -/
def envOk04 : Env04 := { envBad04 with decode := some imgOne }

theorem setPix_pix_of_ne (img : Image) (a b r c : Nat) (v : Pixel)
    (hne : ¬(r = a ∧ c = b)) : (setPix img a b v).pix r c = img.pix r c := by
  simp only [setPix]
  exact if_neg hne

theorem roiWrite_pix_outside (img : Image) (face : Rect) (p : Int × Int)
    (v : Pixel) (r c : Nat)
    (hout : r < face.y ∨ face.y + face.h ≤ r ∨ c < face.x ∨ face.x + face.w ≤ c) :
    (roiWrite img face p v).pix r c = img.pix r c := by
  unfold roiWrite
  split
  · next hin =>
      apply setPix_pix_of_ne
      unfold viewRows viewCols at hin
      omega
  · rfl

theorem foldl_roiWrite_pix_outside (face : Rect) (r c : Nat)
    (hout : r < face.y ∨ face.y + face.h ≤ r ∨ c < face.x ∨ face.x + face.w ≤ c)
    (ps : List (Int × Int)) (img : Image) :
    (ps.foldl (fun im p => roiWrite im face p greenBGR) img).pix r c = img.pix r c := by
  induction ps generalizing img with
  | nil => rfl
  | cons p ps ih =>
      rw [List.foldl_cons, ih]
      exact roiWrite_pix_outside img face p greenBGR r c hout

theorem drawEyes_pix_outside (rp : RectFootprint) (face : Rect) (r c : Nat)
    (hout : r < face.y ∨ face.y + face.h ≤ r ∨ c < face.x ∨ face.x + face.w ≤ c)
    (eyes : List Rect) (img : Image) :
    (drawEyesOnROI rp img face eyes).pix r c = img.pix r c := by
  induction eyes generalizing img with
  | nil => rfl
  | cons e es ih =>
      unfold drawEyesOnROI at ih ⊢
      rw [List.foldl_cons, ih]
      unfold drawRectOnROI
      exact foldl_roiWrite_pix_outside face r c hout (rp e) img

/-- C1: in the two-stage detector, every eye rectangle drawn on the
roi_color view lies, in main-image coordinates, entirely within the
bounds of its parent face rectangle, given that the eye cascade's result
lies within the dimensions of the ROI it was run on. -/
theorem eye_rect_within_parent_face (face eye : Rect)
    (hx : eye.x + eye.w ≤ face.w) (hy : eye.y + eye.h ≤ face.h) :
    rectWithin (absEyeRect face eye) face := by
  unfold rectWithin absEyeRect
  dsimp only
  omega

/-- Witness for C1 at a concrete face and eye rectangle. -/
theorem eye_rect_within_parent_face_witness :
    rectWithin (absEyeRect { x := 10, y := 20, w := 30, h := 40 }
      { x := 2, y := 3, w := 4, h := 5 }) { x := 10, y := 20, w := 30, h := 40 } :=
  eye_rect_within_parent_face _ _ (by decide) (by decide)

/-- C10: the eye-drawing step of detect_features writes only through the
roi_color views (the slices img[y:y+h, x:x+w] of the main image), so
every pixel outside all the face rectangles being processed is left
unchanged, whatever pixel footprints the library rasterises. -/
theorem eye_drawing_mutates_only_face_regions (rp : RectFootprint) (img : Image)
    (facesEyes : List (Rect × List Rect)) (r c : Nat)
    (hout : ∀ fe ∈ facesEyes,
      r < fe.1.y ∨ fe.1.y + fe.1.h ≤ r ∨ c < fe.1.x ∨ fe.1.x + fe.1.w ≤ c) :
    (facesEyes.foldl (fun im fe => drawEyesOnROI rp im fe.1 fe.2) img).pix r c =
      img.pix r c := by
  induction facesEyes generalizing img with
  | nil => rfl
  | cons fe fes ih =>
      rw [List.foldl_cons, ih _ (fun x hx => hout x (List.mem_cons_of_mem fe hx))]
      exact drawEyes_pix_outside rp fe.1 r c (hout fe (List.mem_cons_self fe fes)) fe.2 img

/-- Witness for C10: one concrete face with one eye box, checked at the
pixel (0, 0) outside the face rectangle. -/
theorem eye_drawing_mutates_only_face_regions_witness :
    ([({ x := 1, y := 1, w := 2, h := 2 }, [{ x := 0, y := 0, w := 1, h := 1 }])].foldl
        (fun im fe => drawEyesOnROI rpCorner im fe.1 fe.2) imgOne).pix 0 0 =
      imgOne.pix 0 0 :=
  eye_drawing_mutates_only_face_regions rpCorner imgOne _ 0 0 (by decide)

theorem edge_foldl_img (env : Env01) (l : List Contour) (acc : EdgeBuffers × Bool) :
    (l.foldl (edgeStep env) acc).1.img = acc.1.img := by
  induction l generalizing acc with
  | nil => rfl
  | cons c cs ih =>
      rw [List.foldl_cons, ih]
      unfold edgeStep
      split <;> rfl

/-- C8: detect_face_edges never mutates its input image: every rectangle
is drawn on the result buffer, which starts as img.copy(), so the input
buffer after the call is identical to what was passed in. -/
theorem detect_face_edges_preserves_input (env : Env01) (img : Image) :
    (detect_face_edges env img).2.1.img = img := by
  unfold detect_face_edges
  exact edge_foldl_img env _ _

theorem edge_foldl_flag (env : Env01) (l : List Contour) (acc : EdgeBuffers × Bool) :
    (l.foldl (edgeStep env) acc).2 =
      (acc.2 || l.any fun c => decide (env.contourArea c > 1000)) := by
  induction l generalizing acc with
  | nil => simp
  | cons c cs ih =>
      rw [List.foldl_cons, ih]
      unfold edgeStep
      split
      · next hgt => simp [hgt]
      · next hle => simp [hle]

theorem edge_foldl_result (env : Env01) (l : List Contour) (acc : EdgeBuffers × Bool) :
    (l.foldl (edgeStep env) acc).1.result =
      ((l.filter fun c => decide (env.contourArea c > 1000)).foldl
        (fun im c => drawRect env.rectPixels im (env.boundingRect c) greenBGR)
        acc.1.result) := by
  induction l generalizing acc with
  | nil => rfl
  | cons c cs ih =>
      rw [List.foldl_cons, ih]
      unfold edgeStep
      split
      · next hgt => simp [List.filter_cons, hgt]
      · next hle => simp [List.filter_cons, hle]

/-- C5: in detect_face_edges the face_detected flag is true iff some
retrieved contour has area strictly above 1000, the result image is the
copy of the input with a green bounding rectangle drawn for exactly the
contours above the threshold, and contours with area at most 1000 are
ignored (they neither draw nor set the flag). -/
theorem detect_face_edges_threshold (env : Env01) (img : Image) :
    ((detect_face_edges env img).2.2 = true ↔
      ∃ c ∈ env.findContours
        (env.canny (env.gaussianBlur (env.cvtGray img) (5, 5) 0) 50 150),
        env.contourArea c > 1000) ∧
    (detect_face_edges env img).2.1.result =
      (((env.findContours
          (env.canny (env.gaussianBlur (env.cvtGray img) (5, 5) 0) 50 150)).filter
            fun c => decide (env.contourArea c > 1000)).foldl
        (fun im c => drawRect env.rectPixels im (env.boundingRect c) greenBGR)
        (copyImage img)) := by
  constructor
  · unfold detect_face_edges
    rw [edge_foldl_flag]
    simp [List.any_eq_true]
  · unfold detect_face_edges
    rw [edge_foldl_result]

/-- C2: for each photo-based script, a missing input path yields a
console message and exit status 1 with no cascade/mesh detection call;
when the path exists the script exits 0, and on a successful decode the
run terminates right after the display window's waitKey/destroy pair. -/
theorem photo_scripts_exit_behavior :
    (∀ env : Env02, env.fileExists = false →
      (main02 env).trace = [Effect.printMsg Msg.notFoundPlain] ∧
      (main02 env).exitCode = 1 ∧ noDetectCall (main02 env).trace) ∧
    (∀ env : Env02, env.fileExists = true → (main02 env).exitCode = 0) ∧
    (∀ (env : Env02) (img : Image), env.fileExists = true → env.decode = some img →
      ∃ pre, (main02 env).trace = pre ++ [Effect.waitKey, Effect.destroyAllWindows]) ∧
    (∀ env : Env03, env.fileExists = false →
      (main03 env).trace =
        [Effect.printMsg (Msg.notFoundAt (env.absPath "./data/sample_faces.jpeg"))] ∧
      (main03 env).exitCode = 1 ∧ noDetectCall (main03 env).trace) ∧
    (∀ env : Env03, env.fileExists = true → (main03 env).exitCode = 0) ∧
    (∀ (env : Env03) (img : Image), env.fileExists = true → env.decode = some img →
      ∃ pre, (main03 env).trace = pre ++ [Effect.waitKey, Effect.destroyAllWindows]) ∧
    (∀ env : Env04, env.fileExists = false →
      (main04 env).trace =
        [Effect.printMsg (Msg.notFoundAt (env.absPath "./data/brendan.jpeg"))] ∧
      (main04 env).exitCode = 1 ∧ noDetectCall (main04 env).trace) ∧
    (∀ env : Env04, env.fileExists = true → (main04 env).exitCode = 0) ∧
    (∀ (env : Env04) (img : Image), env.fileExists = true → env.decode = some img →
      ∃ pre, (main04 env).trace = pre ++ [Effect.waitKey, Effect.destroyAllWindows]) := by
  refine ⟨?_, ?_, ?_, ?_, ?_, ?_, ?_, ?_, ?_⟩
  · intro env h
    simp [main02, h, noDetectCall]
  · intro env h
    simp [main02, h]
  · intro env img h hd
    refine ⟨[Effect.loadDetector "haarcascade_frontalface_default.xml",
      Effect.readFile "./data/sample_faces.jpeg",
      Effect.detect "haarcascade_frontalface_default",
      Effect.printMsg (Msg.foundExcl (env.faceDetect (env.cvtGray img)).length),
      Effect.showWindow "Detected Faces",
      Effect.writeFile "./output/detected_faces.jpg",
      Effect.printMsg (Msg.resultSaved "./output/detected_faces.jpg")], ?_⟩
    simp [main02, h, detect_faces_in_image, hd]
  · intro env h
    simp [main03, h, noDetectCall]
  · intro env h
    simp [main03, h]
  · intro env img h hd
    refine ⟨[Effect.loadDetector "haarcascade_frontalface_default.xml",
      Effect.loadDetector "haarcascade_eye.xml",
      Effect.readFile "./data/sample_faces.jpeg",
      Effect.detect "haarcascade_frontalface_default",
      Effect.printMsg (Msg.foundPeriod (env.faceDetect (env.cvtGray img)).length)] ++
      List.replicate (env.faceDetect (env.cvtGray img)).length
        (Effect.detect "haarcascade_eye") ++
      [Effect.showWindow "Detected Faces and Eyes",
      Effect.writeFile "./output/detected_features.jpg",
      Effect.printMsg (Msg.resultSaved "./output/detected_features.jpg")], ?_⟩
    simp [main03, h, detect_features, hd]
  · intro env h
    simp [main04, h, noDetectCall]
  · intro env h
    simp [main04, h]
  · intro env img h hd
    cases hp : env.processResult (env.cvtRGB img) with
    | none =>
        refine ⟨[Effect.loadDetector "FaceMesh",
          Effect.readFile "./data/brendan.jpeg", Effect.detect "FaceMesh",
          Effect.printMsg Msg.noFacesFound,
          Effect.showWindow "Face Contours",
          Effect.writeFile "./output/detected_contours.jpg",
          Effect.printMsg (Msg.resultSaved "./output/detected_contours.jpg")], ?_⟩
        simp [main04, h, detect_face_contours, hd, hp]
    | some l =>
        cases l with
        | nil =>
            refine ⟨[Effect.loadDetector "FaceMesh",
              Effect.readFile "./data/brendan.jpeg", Effect.detect "FaceMesh",
              Effect.printMsg Msg.noFacesFound,
              Effect.showWindow "Face Contours",
              Effect.writeFile "./output/detected_contours.jpg",
              Effect.printMsg (Msg.resultSaved "./output/detected_contours.jpg")], ?_⟩
            simp [main04, h, detect_face_contours, hd, hp]
        | cons a as =>
            refine ⟨[Effect.loadDetector "FaceMesh",
              Effect.readFile "./data/brendan.jpeg", Effect.detect "FaceMesh",
              Effect.printMsg (Msg.foundPeriod (a :: as).length),
              Effect.showWindow "Face Contours",
              Effect.writeFile "./output/detected_contours.jpg",
              Effect.printMsg (Msg.resultSaved "./output/detected_contours.jpg")], ?_⟩
            simp [main04, h, detect_face_contours, hd, hp]

/-- Witness for C2 at concrete environments for all three scripts. -/
theorem photo_scripts_exit_behavior_witness :
    (main02 envMissing02).exitCode = 1 ∧ (main02 envOk02).exitCode = 0 ∧
    (∃ pre, (main02 envOk02).trace = pre ++ [Effect.waitKey, Effect.destroyAllWindows]) ∧
    (main03 envMissing03).exitCode = 1 ∧ (main03 envOk03).exitCode = 0 ∧
    (∃ pre, (main03 envOk03).trace = pre ++ [Effect.waitKey, Effect.destroyAllWindows]) ∧
    (main04 envMissing04).exitCode = 1 ∧ (main04 envOk04).exitCode = 0 ∧
    (∃ pre, (main04 envOk04).trace = pre ++ [Effect.waitKey, Effect.destroyAllWindows]) :=
  ⟨(photo_scripts_exit_behavior.1 envMissing02 rfl).2.1,
    photo_scripts_exit_behavior.2.1 envOk02 rfl,
    photo_scripts_exit_behavior.2.2.1 envOk02 imgOne rfl rfl,
    (photo_scripts_exit_behavior.2.2.2.1 envMissing03 rfl).2.1,
    photo_scripts_exit_behavior.2.2.2.2.1 envOk03 rfl,
    photo_scripts_exit_behavior.2.2.2.2.2.1 envOk03 imgOne rfl rfl,
    (photo_scripts_exit_behavior.2.2.2.2.2.2.1 envMissing04 rfl).2.1,
    photo_scripts_exit_behavior.2.2.2.2.2.2.2.1 envOk04 rfl,
    photo_scripts_exit_behavior.2.2.2.2.2.2.2.2 envOk04 imgOne rfl rfl⟩

/-- C9: in each photo-based script, a failed decode stops the detection
function after exactly the detector-construction steps, the file read
and the error print: no output write, no display window and no
detection call occur. -/
theorem decode_failure_atomic :
    (∀ (env : Env02) (p : String), env.decode = none →
      (detect_faces_in_image env p).1 =
        [Effect.loadDetector "haarcascade_frontalface_default.xml",
          Effect.readFile p, Effect.printMsg Msg.couldNotLoad] ∧
      noFileWrite (detect_faces_in_image env p).1 ∧
      noWindow (detect_faces_in_image env p).1 ∧
      noDetectCall (detect_faces_in_image env p).1) ∧
    (∀ (env : Env03) (p : String), env.decode = none →
      (detect_features env p).1 =
        [Effect.loadDetector "haarcascade_frontalface_default.xml",
          Effect.loadDetector "haarcascade_eye.xml",
          Effect.readFile p, Effect.printMsg Msg.couldNotLoad] ∧
      noFileWrite (detect_features env p).1 ∧
      noWindow (detect_features env p).1 ∧
      noDetectCall (detect_features env p).1) ∧
    (∀ (env : Env04) (p : String), env.decode = none →
      (detect_face_contours env p).1 =
        [Effect.loadDetector "FaceMesh",
          Effect.readFile p, Effect.printMsg Msg.couldNotLoad] ∧
      noFileWrite (detect_face_contours env p).1 ∧
      noWindow (detect_face_contours env p).1 ∧
      noDetectCall (detect_face_contours env p).1) := by
  refine ⟨?_, ?_, ?_⟩
  · intro env p hd
    simp [detect_faces_in_image, hd, noFileWrite, noWindow, noDetectCall]
  · intro env p hd
    simp [detect_features, hd, noFileWrite, noWindow, noDetectCall]
  · intro env p hd
    simp [detect_face_contours, hd, noFileWrite, noWindow, noDetectCall]

/-- Witness for C9: the decode-failure traces at concrete environments. -/
theorem decode_failure_atomic_witness :
    (detect_faces_in_image envBad02 "./data/sample_faces.jpeg").1 =
      [Effect.loadDetector "haarcascade_frontalface_default.xml",
        Effect.readFile "./data/sample_faces.jpeg", Effect.printMsg Msg.couldNotLoad] ∧
    (detect_features envBad03 "./data/sample_faces.jpeg").1 =
      [Effect.loadDetector "haarcascade_frontalface_default.xml",
        Effect.loadDetector "haarcascade_eye.xml",
        Effect.readFile "./data/sample_faces.jpeg", Effect.printMsg Msg.couldNotLoad] ∧
    (detect_face_contours envBad04 "./data/brendan.jpeg").1 =
      [Effect.loadDetector "FaceMesh",
        Effect.readFile "./data/brendan.jpeg", Effect.printMsg Msg.couldNotLoad] :=
  ⟨(decode_failure_atomic.1 envBad02 _ rfl).1,
    (decode_failure_atomic.2.1 envBad03 _ rfl).1,
    (decode_failure_atomic.2.2 envBad04 _ rfl).1⟩

/-- C3: in each photo-based script an error message is printed exactly
when the input file is missing or the decode fails; a missing file makes
the process exit with status 1, and a failed decode makes the detection
function return early (exit 0, no detection call). -/
theorem two_error_conditions :
    (∀ env : Env02,
      (errPrinted (main02 env).trace ↔ env.fileExists = false ∨ env.decode = none) ∧
      (env.fileExists = false → (main02 env).exitCode = 1) ∧
      (env.fileExists = true → env.decode = none →
        (main02 env).exitCode = 0 ∧ noDetectCall (main02 env).trace)) ∧
    (∀ env : Env03,
      (errPrinted (main03 env).trace ↔ env.fileExists = false ∨ env.decode = none) ∧
      (env.fileExists = false → (main03 env).exitCode = 1) ∧
      (env.fileExists = true → env.decode = none →
        (main03 env).exitCode = 0 ∧ noDetectCall (main03 env).trace)) ∧
    (∀ env : Env04,
      (errPrinted (main04 env).trace ↔ env.fileExists = false ∨ env.decode = none) ∧
      (env.fileExists = false → (main04 env).exitCode = 1) ∧
      (env.fileExists = true → env.decode = none →
        (main04 env).exitCode = 0 ∧ noDetectCall (main04 env).trace)) := by
  refine ⟨?_, ?_, ?_⟩
  · intro env
    refine ⟨?_, ?_, ?_⟩
    · cases h : env.fileExists with
      | false => simp [main02, h, errPrinted, Msg.isError]
      | true =>
          cases hd : env.decode with
          | none => simp [main02, h, hd, detect_faces_in_image, errPrinted, Msg.isError]
          | some img => simp [main02, h, hd, detect_faces_in_image, errPrinted, Msg.isError]
    · intro h
      simp [main02, h]
    · intro h hd
      simp [main02, h, hd, detect_faces_in_image, noDetectCall]
  · intro env
    refine ⟨?_, ?_, ?_⟩
    · cases h : env.fileExists with
      | false => simp [main03, h, errPrinted, Msg.isError]
      | true =>
          cases hd : env.decode with
          | none => simp [main03, h, hd, detect_features, errPrinted, Msg.isError]
          | some img =>
              simp [main03, h, hd, detect_features, errPrinted, Msg.isError,
                List.mem_replicate]
    · intro h
      simp [main03, h]
    · intro h hd
      simp [main03, h, hd, detect_features, noDetectCall]
  · intro env
    refine ⟨?_, ?_, ?_⟩
    · cases h : env.fileExists with
      | false => simp [main04, h, errPrinted, Msg.isError]
      | true =>
          cases hd : env.decode with
          | none => simp [main04, h, hd, detect_face_contours, errPrinted, Msg.isError]
          | some img =>
              cases hp : env.processResult (env.cvtRGB img) with
              | none =>
                  simp [main04, h, hd, detect_face_contours, hp, errPrinted, Msg.isError]
              | some l =>
                  cases l with
                  | nil =>
                      simp [main04, h, hd, detect_face_contours, hp, errPrinted,
                        Msg.isError]
                  | cons a as =>
                      simp [main04, h, hd, detect_face_contours, hp, errPrinted,
                        Msg.isError]
    · intro h
      simp [main04, h]
    · intro h hd
      simp [main04, h, hd, detect_face_contours, noDetectCall]

/-- Witness for C3 at concrete environments for all three scripts. -/
theorem two_error_conditions_witness :
    (errPrinted (main02 envMissing02).trace ↔
      envMissing02.fileExists = false ∨ envMissing02.decode = none) ∧
    (main02 envMissing02).exitCode = 1 ∧
    ((main02 envBad02).exitCode = 0 ∧ noDetectCall (main02 envBad02).trace) ∧
    (errPrinted (main03 envMissing03).trace ↔
      envMissing03.fileExists = false ∨ envMissing03.decode = none) ∧
    (main03 envMissing03).exitCode = 1 ∧
    ((main03 envBad03).exitCode = 0 ∧ noDetectCall (main03 envBad03).trace) ∧
    (errPrinted (main04 envMissing04).trace ↔
      envMissing04.fileExists = false ∨ envMissing04.decode = none) ∧
    (main04 envMissing04).exitCode = 1 ∧
    ((main04 envBad04).exitCode = 0 ∧ noDetectCall (main04 envBad04).trace) :=
  ⟨(two_error_conditions.1 envMissing02).1,
    (two_error_conditions.1 envMissing02).2.1 rfl,
    (two_error_conditions.1 envBad02).2.2 rfl rfl,
    (two_error_conditions.2.1 envMissing03).1,
    (two_error_conditions.2.1 envMissing03).2.1 rfl,
    (two_error_conditions.2.1 envBad03).2.2 rfl rfl,
    (two_error_conditions.2.2 envMissing04).1,
    (two_error_conditions.2.2 envMissing04).2.1 rfl,
    (two_error_conditions.2.2 envBad04).2.2 rfl rfl⟩

/-- C6: a run with zero detections is normal output: each photo-based
script still prints the zero count (or the no-faces message), still
writes its output image, and still exits with status 0. -/
theorem zero_detections_normal :
    (∀ (env : Env02) (img : Image), env.fileExists = true → env.decode = some img →
      env.faceDetect (env.cvtGray img) = [] →
      Effect.printMsg (Msg.foundExcl 0) ∈ (main02 env).trace ∧
      (Msg.foundExcl 0).render = "Found 0 faces!" ∧
      Effect.writeFile "./output/detected_faces.jpg" ∈ (main02 env).trace ∧
      (main02 env).exitCode = 0) ∧
    (∀ (env : Env03) (img : Image), env.fileExists = true → env.decode = some img →
      env.faceDetect (env.cvtGray img) = [] →
      Effect.printMsg (Msg.foundPeriod 0) ∈ (main03 env).trace ∧
      (Msg.foundPeriod 0).render = "Found 0 faces." ∧
      Effect.writeFile "./output/detected_features.jpg" ∈ (main03 env).trace ∧
      (main03 env).exitCode = 0) ∧
    (∀ (env : Env04) (img : Image), env.fileExists = true → env.decode = some img →
      (env.processResult (env.cvtRGB img) = none ∨
        env.processResult (env.cvtRGB img) = some []) →
      Effect.printMsg Msg.noFacesFound ∈ (main04 env).trace ∧
      Msg.noFacesFound.render = "No faces found." ∧
      Effect.writeFile "./output/detected_contours.jpg" ∈ (main04 env).trace ∧
      (main04 env).exitCode = 0) := by
  refine ⟨?_, ?_, ?_⟩
  · intro env img h hd hz
    refine ⟨?_, by decide, ?_, ?_⟩ <;> simp [main02, h, hd, hz, detect_faces_in_image]
  · intro env img h hd hz
    refine ⟨?_, by decide, ?_, ?_⟩ <;> simp [main03, h, hd, hz, detect_features]
  · intro env img h hd hz
    cases hz with
    | inl hp =>
        refine ⟨?_, by decide, ?_, ?_⟩ <;>
          simp [main04, h, hd, hp, detect_face_contours]
    | inr hp =>
        refine ⟨?_, by decide, ?_, ?_⟩ <;>
          simp [main04, h, hd, hp, detect_face_contours]

/-- Witness for C6: zero-detection runs at concrete environments. -/
theorem zero_detections_normal_witness :
    (Effect.printMsg (Msg.foundExcl 0) ∈ (main02 envOk02).trace ∧
      (Msg.foundExcl 0).render = "Found 0 faces!" ∧
      Effect.writeFile "./output/detected_faces.jpg" ∈ (main02 envOk02).trace ∧
      (main02 envOk02).exitCode = 0) ∧
    (Effect.printMsg (Msg.foundPeriod 0) ∈ (main03 envOk03).trace ∧
      (Msg.foundPeriod 0).render = "Found 0 faces." ∧
      Effect.writeFile "./output/detected_features.jpg" ∈ (main03 envOk03).trace ∧
      (main03 envOk03).exitCode = 0) ∧
    (Effect.printMsg Msg.noFacesFound ∈ (main04 envOk04).trace ∧
      Msg.noFacesFound.render = "No faces found." ∧
      Effect.writeFile "./output/detected_contours.jpg" ∈ (main04 envOk04).trace ∧
      (main04 envOk04).exitCode = 0) :=
  ⟨zero_detections_normal.1 envOk02 imgOne rfl rfl rfl,
    zero_detections_normal.2.1 envOk03 imgOne rfl rfl rfl,
    zero_detections_normal.2.2 envOk04 imgOne rfl rfl (Or.inl rfl)⟩

/-- C4 counterexample: the synthetic-image script 01 reads no input
file, writes no output file and opens no cv2 display window — its whole
run is the matplotlib figure call and the verdict print — so the claim
that every script reads from ./data/ and writes an annotated JPEG under
./output/ fails on script 01. -/
theorem synthetic_script_no_file_io :
    (main01 cEnv01).trace = [Effect.plotShow, Effect.printMsg Msg.noEdgeFace] ∧
    (∀ p, Effect.readFile p ∉ (main01 cEnv01).trace) ∧
    (∀ p, Effect.writeFile p ∉ (main01 cEnv01).trace) ∧
    (∀ s, Effect.showWindow s ∉ (main01 cEnv01).trace) := by
  have h : (main01 cEnv01).trace = [Effect.plotShow, Effect.printMsg Msg.noEdgeFace] := rfl
  refine ⟨h, ?_, ?_, ?_⟩ <;> simp [h]

/-- C4 as amended: each of the three photo-based scripts reads its fixed
./data/ path and, when the decode succeeds, writes its fixed ./output/
path and opens a display window awaiting a key press; the synthetic
script 01 reads and writes no file at all and always exits 0. -/
theorem scripts_io_profile_amended :
    (∀ (env : Env02) (img : Image), env.fileExists = true → env.decode = some img →
      Effect.readFile "./data/sample_faces.jpeg" ∈ (main02 env).trace ∧
      Effect.writeFile "./output/detected_faces.jpg" ∈ (main02 env).trace ∧
      Effect.showWindow "Detected Faces" ∈ (main02 env).trace ∧
      Effect.waitKey ∈ (main02 env).trace) ∧
    (∀ (env : Env03) (img : Image), env.fileExists = true → env.decode = some img →
      Effect.readFile "./data/sample_faces.jpeg" ∈ (main03 env).trace ∧
      Effect.writeFile "./output/detected_features.jpg" ∈ (main03 env).trace ∧
      Effect.showWindow "Detected Faces and Eyes" ∈ (main03 env).trace ∧
      Effect.waitKey ∈ (main03 env).trace) ∧
    (∀ (env : Env04) (img : Image), env.fileExists = true → env.decode = some img →
      Effect.readFile "./data/brendan.jpeg" ∈ (main04 env).trace ∧
      Effect.writeFile "./output/detected_contours.jpg" ∈ (main04 env).trace ∧
      Effect.showWindow "Face Contours" ∈ (main04 env).trace ∧
      Effect.waitKey ∈ (main04 env).trace) ∧
    (∀ env : Env01,
      (∀ p, Effect.readFile p ∉ (main01 env).trace) ∧
      (∀ p, Effect.writeFile p ∉ (main01 env).trace) ∧
      (main01 env).exitCode = 0) := by
  refine ⟨?_, ?_, ?_, ?_⟩
  · intro env img h hd
    refine ⟨?_, ?_, ?_, ?_⟩ <;> simp [main02, h, hd, detect_faces_in_image]
  · intro env img h hd
    refine ⟨?_, ?_, ?_, ?_⟩ <;> simp [main03, h, hd, detect_features]
  · intro env img h hd
    refine ⟨?_, ?_, ?_, ?_⟩ <;> simp [main04, h, hd, detect_face_contours]
  · intro env
    refine ⟨?_, ?_, rfl⟩ <;> intro p <;> simp [main01]

/-- Witness for the amended C4 at concrete environments. -/
theorem scripts_io_profile_amended_witness :
    (Effect.readFile "./data/sample_faces.jpeg" ∈ (main02 envOk02).trace ∧
      Effect.writeFile "./output/detected_faces.jpg" ∈ (main02 envOk02).trace ∧
      Effect.showWindow "Detected Faces" ∈ (main02 envOk02).trace ∧
      Effect.waitKey ∈ (main02 envOk02).trace) ∧
    (Effect.readFile "./data/sample_faces.jpeg" ∈ (main03 envOk03).trace ∧
      Effect.writeFile "./output/detected_features.jpg" ∈ (main03 envOk03).trace ∧
      Effect.showWindow "Detected Faces and Eyes" ∈ (main03 envOk03).trace ∧
      Effect.waitKey ∈ (main03 envOk03).trace) ∧
    (Effect.readFile "./data/brendan.jpeg" ∈ (main04 envOk04).trace ∧
      Effect.writeFile "./output/detected_contours.jpg" ∈ (main04 envOk04).trace ∧
      Effect.showWindow "Face Contours" ∈ (main04 envOk04).trace ∧
      Effect.waitKey ∈ (main04 envOk04).trace) ∧
    ((∀ p, Effect.readFile p ∉ (main01 cEnv01).trace) ∧
      (∀ p, Effect.writeFile p ∉ (main01 cEnv01).trace) ∧
      (main01 cEnv01).exitCode = 0) :=
  ⟨scripts_io_profile_amended.1 envOk02 imgOne rfl rfl,
    scripts_io_profile_amended.2.1 envOk03 imgOne rfl rfl,
    scripts_io_profile_amended.2.2.1 envOk04 imgOne rfl rfl,
    scripts_io_profile_amended.2.2.2 cEnv01⟩

end FaceCraft
